import Mathlib

/-!
OffRezBot — shallow embedding of the conversation engine

This file embeds the WhatsApp intake bot of this repository (`src/main.py`,
`src/redis_utils.py`) in Lean 4 and proves properties of it.

The authoritative code is the Flask `webhook` POST handler in `src/main.py`
(lines 57–359): a single `if/elif` chain keyed on the stored `step` string.
The free-standing `handle_*` functions and the `action_mapping` dict further
down in `src/main.py` are never invoked by the webhook and are not embedded.

Modelling conventions:
* The Redis-backed session dict becomes the `Session` structure; absent keys
  become `Option` fields with `none` as default.
* Python strings are Lean `String`s; `str.strip().lower()` becomes
  `String.trim ∘ String.toLower` (faithful on the ASCII data the bot handles).
* `float(msg)` becomes `pyParseFloat?` returning `Option PyFloat`, covering
  the full CPython acceptance grammar on already-stripped input: signed finite
  decimal/exponent literals with PEP-515 digit-group underscores, and the
  special forms `inf`/`infinity`/`nan` (case-insensitive).  A finite literal
  is modelled by its exact decimal value as a rational; the IEEE-754 rounding
  CPython applies when storing it is not modelled, and no claim compares float
  values beyond the literals of the scripts.
* I/O performed by a handled event (the Redis `SET` calls of
  `update_user_state` and the Graph-API `send`) is reified as an ordered
  `Effect` trace.
-/

namespace OffRezBot

/-- Message types distinguished by the webhook: `msg_type == "text"`,
`msg_type == "image"`, or any other provider event kind (audio, sticker, …),
which the webhook does not special-case. -/
inductive MsgType
  | text
  | image
  | other
  deriving DecidableEq, Repr

/-- Value of a CPython `float(...)` call that succeeded: a finite literal
(modelled by its exact decimal value), a signed infinity, or a NaN.  The rent
steps store such a value in the session. -/
inductive PyFloat
  | finite (q : ℚ)
  | inf (neg : Bool)
  | nan
  deriving DecidableEq, Repr

/-- The per-party session record stored in Redis (`user_state` in
`src/main.py`).  `step` defaults to `"start"` (line 95); every collected
attribute is absent until its owning step writes it. -/
structure Session where
  step : String := "start"
  userName : Option String := none
  userId : Option String := none
  house_type : Option String := none
  has_cat : Option String := none
  room_single : Option Nat := none
  rent_single : Option PyFloat := none
  room_2_sharing : Option Nat := none
  rent_2_sharing : Option PyFloat := none
  room_3_sharing : Option Nat := none
  rent_3_sharing : Option PyFloat := none
  student_age : Option String := none
  deriving DecidableEq, Repr

/-- The nine collected listing attributes of a session, as one tuple: the
`attributes` of the specification (§3).  `step`, `userName` and `userId` are
deliberately not part of it. -/
def Session.listingAttrs (s : Session) :
    Option String × Option String × Option Nat × Option PyFloat × Option Nat ×
    Option PyFloat × Option Nat × Option PyFloat × Option String :=
  (s.house_type, s.has_cat, s.room_single, s.rent_single, s.room_2_sharing,
   s.rent_2_sharing, s.room_3_sharing, s.rent_3_sharing, s.student_age)

/-! ## Input normalization helpers -/

/-- Python `str.strip()` on the character list: drop leading and trailing
whitespace.  (Python also strips some further Unicode whitespace; the bot's
data is ASCII.) -/
def pyStrip (s : String) : String :=
  ⟨((s.data.dropWhile Char.isWhitespace).reverse.dropWhile Char.isWhitespace).reverse⟩

/-- Python `str.lower()` character by character (ASCII case mapping, which covers
the bot's token matching). -/
def pyLower (s : String) : String :=
  ⟨s.data.map Char.toLower⟩

/-- Decimal value of a digit list (most significant first). -/
def digitsToNat (ds : List Char) : Nat :=
  ds.foldl (fun a c => a * 10 + (c.toNat - 48)) 0

/-- Python `msg.isdigit()` guarding `int(msg)` in the count steps: CPython's
`str.isdigit` on ASCII data is "non-empty and all characters are decimal
digits", and `int(msg)` then parses the decimal numeral. -/
def pyParseInt? (s : String) : Option Nat :=
  if s.data ≠ [] ∧ s.data.all Char.isDigit then some (digitsToNat s.data) else none

/-- Longest digit-group prefix of a character list in the PEP-515 sense —
`D+(_D+)*`, a digit run in which a single underscore may occur only between
two digits — returning the digits with the underscores elided, and the
remainder.  An underscore not flanked by digits on both sides is left in the
remainder (so `1__0`, `1_`, `1_.5` all fail at the call site). -/
def takeDigitRun : List Char → List Char × List Char
  | [] => ([], [])
  | c :: '_' :: c2 :: rest =>
      if c.isDigit ∧ c2.isDigit then
        let (ds, r) := takeDigitRun (c2 :: rest)
        (c :: ds, r)
      else if c.isDigit then ([c], '_' :: c2 :: rest)
      else ([], c :: '_' :: c2 :: rest)
  | c :: cs =>
      if c.isDigit then
        let (ds, rest) := takeDigitRun cs
        (c :: ds, rest)
      else
        ([], c :: cs)

/-- Optional leading sign. -/
def parseSign : List Char → Int × List Char
  | '+' :: cs => (1, cs)
  | '-' :: cs => (-1, cs)
  | cs => (1, cs)

/-- Mantissa of a finite float literal: `R ('.' R?)?` or `'.' R` for
digit-group runs `R`.  Returns the integer-part and fraction-part digit lists
(underscores elided) and the unconsumed remainder. -/
def parseMantissa (cs : List Char) : Option ((List Char × List Char) × List Char) :=
  let (ip, r1) := takeDigitRun cs
  match r1 with
  | '.' :: r2 =>
      let (fp, r3) := takeDigitRun r2
      if ip.isEmpty && fp.isEmpty then none else some ((ip, fp), r3)
  | _ => if ip.isEmpty then none else some ((ip, []), r1)

/-- Exponent part after the `e`/`E` marker: optional sign then a digit-group
run. -/
def parseExponent (cs : List Char) : Option (Int × List Char) :=
  let (sg, r1) := parseSign cs
  let (ds, r2) := takeDigitRun r1
  if ds.isEmpty then none else some (sg * (digitsToNat ds : Int), r2)

/-- Exact rational value `sg · (ip.fp) · 10^e` of a parsed finite float
literal, assembled with integer arithmetic and one `mkRat`. -/
def floatValue (sg : Int) (ip fp : List Char) (e : Int) : ℚ :=
  let n := digitsToNat (ip ++ fp)
  let eAdj := e - (fp.length : Int)
  if 0 ≤ eAdj then mkRat (sg * ((n * 10 ^ eAdj.toNat : Nat) : Int)) 1
  else mkRat (sg * (n : Int)) (10 ^ (-eAdj).toNat)

/-- Python `float(msg)` as used by the rent steps (`src/main.py` lines 238,
266, 294), on input whose surrounding whitespace is already gone (`msg` is
stripped at line 88).  Accepts exactly what CPython accepts: an optional
sign followed by `inf`, `infinity` or `nan` (case-insensitive), or a finite
literal `(R ('.' R?)? | '.' R) ([eE] [+-]? R)?` whose digit-group runs `R`
may contain PEP-515 underscores.  A finite literal is modelled by its exact
decimal value. -/
def pyParseFloat? (s : String) : Option PyFloat :=
  let (sg, r1) := parseSign s.data
  let lowered := r1.map Char.toLower
  if lowered = ['i', 'n', 'f'] ∨ lowered = ['i', 'n', 'f', 'i', 'n', 'i', 't', 'y'] then
    some (PyFloat.inf (decide (sg < 0)))
  else if lowered = ['n', 'a', 'n'] then
    some PyFloat.nan
  else
    match parseMantissa r1 with
    | none => none
    | some ((ip, fp), r2) =>
        match r2 with
        | [] => some (PyFloat.finite (floatValue sg ip fp 0))
        | 'e' :: r3 =>
            match parseExponent r3 with
            | some (e, []) => some (PyFloat.finite (floatValue sg ip fp e))
            | _ => none
        | 'E' :: r3 =>
            match parseExponent r3 with
            | some (e, []) => some (PyFloat.finite (floatValue sg ip fp e))
            | _ => none
        | _ => none

/-- Line 88 of `src/main.py`:
`msg = message.get("text", {}).get("body", "").strip().lower() if msg_type == "text" else ""`.
Every non-text event is dispatched with the empty message. -/
def normalizeMsg (mt : MsgType) (body : String) : String :=
  if mt = MsgType.text then pyLower (pyStrip body) else ""

/-- The greeting token list of the webhook (`src/main.py` lines 153 and 337):
`["hi", "hie", "hey"]`. -/
def greetingTokens : List String := ["hi", "hie", "hey"]

/-! ## Effects

Each handled event performs Redis writes (`update_user_state`, a `SET` with a
TTL, `src/redis_utils.py` lines 30–41) and one WhatsApp `send`
(`src/main.py` lines 24–49).  They are reified in call order. -/

/-- One observable side effect of handling an event. -/
inductive Effect
  | store (userId : String) (state : Session) (ttl : Nat)
  | send (message : String) (recipient : String)
  deriving DecidableEq, Repr

/-- The TTL passed by `update_user_state` (`src/redis_utils.py` line 35):
`3600 * 24 * 2`, i.e. two days. -/
def SESSION_TTL : Nat := 3600 * 24 * 2

/-! ## Reply strings (verbatim from `src/main.py`) -/

/-- Image acknowledgement, lines 100–104 (= 109–113); `name or 'there'`. -/
def imageReply (name : String) : String :=
  "Thanks " ++ (if name = "" then "there" else name) ++
  " for the image.\n\nNow let\x27s collect house details.\n\nDo you have accommodation for *boys*, *girls*, or *mixed*?"

/-- Line 154. -/
def startGreetReply : String :=
  "Hello! Are you a *student* or a *landlord*? Please reply with one."

/-- Line 156. -/
def landlordReply : String :=
  "Great! Please send a screenshot of your WhatsApp username with your contact name for verification."

/-- Line 161. -/
def studentReply : String :=
  "Welcome, student! Please download our app to secure your accommodation."

/-- Line 166. -/
def startRejectReply : String :=
  "Please reply with *student* or *landlord* to continue."

/-- Line 176. -/
def catPrompt : String := "Do you have a *cat*? Please reply *yes* or *no*."

/-- Line 181. -/
def manualRejectReply : String := "Please reply with *boys*, *girls*, or *mixed*."

/-- Line 191. -/
def availabilityPrompt : String := "Do you have a vacancy? Reply *yes* or *no*."

/-- Line 196. -/
def catRejectReply : String := "Do you have a cat? Please reply *yes* or *no*."

/-- Line 205. -/
def noVacancyReply : String :=
  "OK thanks. Whenever you have vacancies, don\x27t hesitate to say \x27Hi!\x27"

/-- Line 210. -/
def singleCountPrompt : String :=
  "How many *boys* or *girls* do you need accommodation for in *single rooms*? (Enter number only)"

/-- Line 215. -/
def availabilityRejectReply : String := "Do you have a vacancy? Please reply *yes* or *no*."

/-- Line 225. -/
def singleRentPrompt : String := "Please confirm your rent for a single room (e.g. 130)."

/-- Line 230. -/
def singleCountRejectReply : String :=
  "Please enter the number of students needing single rooms (number only)."

/-- Line 239. -/
def twoShareCountPrompt : String := "How many students need 2-sharing rooms? (Enter number only)"

/-- Line 244. -/
def singleRentRejectReply : String := "Please enter the rent as a number (e.g. 130)."

/-- Line 253. -/
def twoShareRentPrompt : String := "Please confirm your rent for 2-sharing rooms (e.g. 80)."

/-- Line 258. -/
def twoShareCountRejectReply : String :=
  "Please enter number of students needing 2-sharing rooms (number only)."

/-- Line 267. -/
def threeShareCountPrompt : String := "How many students need 3-sharing rooms? (Enter number only)"

/-- Line 272. -/
def twoShareRentRejectReply : String := "Please enter the rent as a number (e.g. 80)."

/-- Line 281. -/
def threeShareRentPrompt : String := "Please confirm your rent for 3-sharing rooms (e.g. 60)."

/-- Line 286. -/
def threeShareCountRejectReply : String :=
  "Please enter number of students needing 3-sharing rooms (number only)."

/-- Line 295. -/
def agePrompt : String := "What age group are the students? (e.g. 18-22)"

/-- Line 300. -/
def threeShareRentRejectReply : String := "Please enter the rent as a number (e.g. 60)."

/-- Line 308. -/
def confirmPrompt : String :=
  "Thank you. Please confirm your listing by typing *confirm* or type *cancel* to abort."

/-- Line 319. -/
def confirmThanksReply : String := "Thank you! Your listing will be published soon."

/-- Line 324. -/
def cancelReply : String := "Your listing was cancelled. Type \x27Hi\x27 to start over."

/-- Line 329. -/
def confirmRejectReply : String :=
  "Please type *confirm* to publish your listing or *cancel* to abort."

/-- Line 338. -/
def endGreetReply : String := "Welcome back! Are you a *student* or a *landlord*?"

/-- Line 343. -/
def endRejectReply : String := "Thank you for contacting us. Type \x27Hi\x27 to start again."

/-- Line 351 (default branch for a step value outside the elif chain). -/
def defaultReply : String := "Sorry, I didn\x27t understand that. Type \x27Hi\x27 to start over."

/-! ## The webhook POST handler -/

/-- Lines 91–95 of `src/main.py`: load or create the session.  A missing
record becomes a fresh dict (`get_user_state(sender) or {}`); the `user`
sub-dict is written only when absent; `user_id` is always overwritten with the
sender; `step` defaults to `"start"`. -/
def initState (loaded : Option Session) (name sender : String) : Session :=
  let s0 := loaded.getD {}
  let s1 := if s0.userName = none then { s0 with userName := some name } else s0
  { s1 with userId := some sender }

/-! ## The step-keyed dispatch of the webhook for non-image events

This is the `if/elif` chain of `src/main.py` lines 151–355.  Each `elif` arm
of the source is one `...Arm` function below; `dispatchText` is the chain
that selects among them.  Each arm returns the session after the branch, the
reply text, and the `update_user_state` calls made inside the branch (the
trailing `update_user_state(sender, ...)` / `send(...)` pair common to every
branch is appended by `webhookPost`). -/

/-- Arm for step `"start"` (`src/main.py` lines 152–170). -/
@[simp] def startArm (msg sender : String) (s0 : Session) :
    Session × String × List Effect :=
  if msg ∈ greetingTokens then (s0, startGreetReply, [])
  else if msg = "landlord" then
    let s1 := { s0 with step := "awaiting_image" }
    (s1, landlordReply, [.store sender s1 SESSION_TTL])
  else if msg = "student" then
    let s1 := { s0 with step := "student_pending" }
    (s1, studentReply, [.store sender s1 SESSION_TTL])
  else (s0, startRejectReply, [])

/-- Arm for step `"manual"` (lines 172–185). -/
@[simp] def manualArm (msg sender : String) (s0 : Session) :
    Session × String × List Effect :=
  if msg ∈ ["boys", "girls", "mixed"] then
    let s1 := { s0 with house_type := some msg, step := "ask_cat_owner" }
    (s1, catPrompt, [.store sender s1 SESSION_TTL])
  else (s0, manualRejectReply, [])

/-- Arm for step `"ask_cat_owner"` (lines 187–200). -/
@[simp] def catOwnerArm (msg sender : String) (s0 : Session) :
    Session × String × List Effect :=
  if msg ∈ ["yes", "no"] then
    let s1 := { s0 with has_cat := some msg, step := "ask_availability" }
    (s1, availabilityPrompt, [.store sender s1 SESSION_TTL])
  else (s0, catRejectReply, [])

/-- Arm for step `"ask_availability"` (lines 202–219). -/
@[simp] def availabilityArm (msg sender : String) (s0 : Session) :
    Session × String × List Effect :=
  if msg = "no" then
    let s1 := { s0 with step := "end" }
    (s1, noVacancyReply, [.store sender s1 SESSION_TTL])
  else if msg = "yes" then
    let s1 := { s0 with step := "ask_room_type" }
    (s1, singleCountPrompt, [.store sender s1 SESSION_TTL])
  else (s0, availabilityRejectReply, [])

/-- Arm for step `"ask_room_type"` (lines 221–234). -/
@[simp] def roomTypeArm (msg sender : String) (s0 : Session) :
    Session × String × List Effect :=
  match pyParseInt? msg with
  | some n =>
      let s1 := { s0 with room_single := some n, step := "confirm_single" }
      (s1, singleRentPrompt, [.store sender s1 SESSION_TTL])
  | none => (s0, singleCountRejectReply, [])

/-- Arm for step `"confirm_single"` (lines 236–248). -/
@[simp] def confirmSingleArm (msg sender : String) (s0 : Session) :
    Session × String × List Effect :=
  match pyParseFloat? msg with
  | some q =>
      let s1 := { s0 with rent_single := some q, step := "ask_2_sharing" }
      (s1, twoShareCountPrompt, [.store sender s1 SESSION_TTL])
  | none => (s0, singleRentRejectReply, [])

/-- Arm for step `"ask_2_sharing"` (lines 250–262). -/
@[simp] def twoSharingArm (msg sender : String) (s0 : Session) :
    Session × String × List Effect :=
  match pyParseInt? msg with
  | some n =>
      let s1 := { s0 with room_2_sharing := some n, step := "confirm_2_sharing" }
      (s1, twoShareRentPrompt, [.store sender s1 SESSION_TTL])
  | none => (s0, twoShareCountRejectReply, [])

/-- Arm for step `"confirm_2_sharing"` (lines 264–276). -/
@[simp] def confirmTwoSharingArm (msg sender : String) (s0 : Session) :
    Session × String × List Effect :=
  match pyParseFloat? msg with
  | some q =>
      let s1 := { s0 with rent_2_sharing := some q, step := "ask_3_sharing" }
      (s1, threeShareCountPrompt, [.store sender s1 SESSION_TTL])
  | none => (s0, twoShareRentRejectReply, [])

/-- Arm for step `"ask_3_sharing"` (lines 278–290). -/
@[simp] def threeSharingArm (msg sender : String) (s0 : Session) :
    Session × String × List Effect :=
  match pyParseInt? msg with
  | some n =>
      let s1 := { s0 with room_3_sharing := some n, step := "confirm_3_sharing" }
      (s1, threeShareRentPrompt, [.store sender s1 SESSION_TTL])
  | none => (s0, threeShareCountRejectReply, [])

/-- Arm for step `"confirm_3_sharing"` (lines 292–304). -/
@[simp] def confirmThreeSharingArm (msg sender : String) (s0 : Session) :
    Session × String × List Effect :=
  match pyParseFloat? msg with
  | some q =>
      let s1 := { s0 with rent_3_sharing := some q, step := "ask_student_age" }
      (s1, agePrompt, [.store sender s1 SESSION_TTL])
  | none => (s0, threeShareRentRejectReply, [])

/-- Arm for step `"ask_student_age"` (lines 306–314): unconditional, no
validation, and no inner update call. -/
@[simp] def studentAgeArm (msg : String) (s0 : Session) :
    Session × String × List Effect :=
  let s1 := { s0 with student_age := some msg, step := "confirm_listing" }
  (s1, confirmPrompt, [])

/-- Arm for step `"confirm_listing"` (lines 316–333). -/
@[simp] def confirmListingArm (msg sender : String) (s0 : Session) :
    Session × String × List Effect :=
  if msg = "confirm" then
    let s1 := { s0 with step := "end" }
    (s1, confirmThanksReply, [.store sender s1 SESSION_TTL])
  else if msg = "cancel" then
    let s1 := { s0 with step := "end" }
    (s1, cancelReply, [.store sender s1 SESSION_TTL])
  else (s0, confirmRejectReply, [])

/-- Arm for step `"end"` (lines 335–347). -/
@[simp] def endArm (msg sender : String) (s0 : Session) :
    Session × String × List Effect :=
  if msg ∈ greetingTokens then
    let s1 := { s0 with step := "start" }
    (s1, endGreetReply, [.store sender s1 SESSION_TTL])
  else (s0, endRejectReply, [])

/-- Default branch (lines 349–355).  The elif chain has no arm for
`"awaiting_image"` or `"student_pending"`, so text events at those steps land
here too, alongside genuinely unknown step values. -/
@[simp] def defaultArm (s0 : Session) : Session × String × List Effect :=
  let s1 := { s0 with step := "start" }
  (s1, defaultReply, [])

/-- The `step`-keyed selection of the webhook's `if/elif` chain. -/
def dispatchText (msg sender : String) (s0 : Session) : Session × String × List Effect :=
  if s0.step = "start" then startArm msg sender s0
  else if s0.step = "manual" then manualArm msg sender s0
  else if s0.step = "ask_cat_owner" then catOwnerArm msg sender s0
  else if s0.step = "ask_availability" then availabilityArm msg sender s0
  else if s0.step = "ask_room_type" then roomTypeArm msg sender s0
  else if s0.step = "confirm_single" then confirmSingleArm msg sender s0
  else if s0.step = "ask_2_sharing" then twoSharingArm msg sender s0
  else if s0.step = "confirm_2_sharing" then confirmTwoSharingArm msg sender s0
  else if s0.step = "ask_3_sharing" then threeSharingArm msg sender s0
  else if s0.step = "confirm_3_sharing" then confirmThreeSharingArm msg sender s0
  else if s0.step = "ask_student_age" then studentAgeArm msg s0
  else if s0.step = "confirm_listing" then confirmListingArm msg sender s0
  else if s0.step = "end" then endArm msg sender s0
  else defaultArm s0

/-- One POST delivery carrying one message (`src/main.py` lines 68–355):
normalize the text (line 88), load/initialize the session (lines 91–95),
special-case images (lines 97–121), otherwise dispatch on the step, and in
every case finish with `update_user_state(sender, user_state)` followed by
`send(reply, sender, phone_id)`.  Returns the session as last written, the
reply, and the ordered effect trace. -/
def webhookPost (sender name : String) (mt : MsgType) (body : String)
    (loaded : Option Session) : Session × String × List Effect :=
  let msg := normalizeMsg mt body
  let s0 := initState loaded name sender
  if mt = MsgType.image then
    -- lines 98–116: the two arms of `if step == "awaiting_image"` are
    -- textually identical; any image at any step lands in "manual"
    let s1 := { s0 with step := "manual" }
    (s1, imageReply name,
      [.store sender s1 SESSION_TTL, .store sender s1 SESSION_TTL,
       .send (imageReply name) sender])
  else
    let r := dispatchText msg sender s0
    (r.1, r.2.1, r.2.2 ++ [.store sender r.1 SESSION_TTL, .send r.2.1 sender])

/-- Feed a script of deliveries through the webhook, threading the stored
session: what `update_user_state` last wrote is what `get_user_state` next
returns. -/
def runScript (sender name : String) :
    List (MsgType × String) → Option Session → Option Session
  | [], st => st
  | (mt, b) :: rest, st =>
      runScript sender name rest (some (webhookPost sender name mt b st).1)

/-! ## External collaborators (`src/redis_utils.py`) -/

/-- Outcome of the Redis `GET` inside `get_user_state`: either the backend
answered (with or without a stored record) or the call failed. -/
inductive LoadOutcome
  | ok (found : Option Session)
  | error
  deriving DecidableEq, Repr

/-- Function `get_user_state` (`src/redis_utils.py` lines 17–27): any backend failure
is caught by the bare `except`, logged, and `None` returned — a failed load is
indistinguishable from a missing key. -/
def get_user_state : LoadOutcome → Option Session
  | .ok found => found
  | .error => none

/-- Function `is_duplicate_message` (`src/redis_utils.py` lines 51–77): membership
test against the stored per-party list of recent message ids; on a miss the
id is appended, the list truncated to its last 5 entries (`old[-5:]`) and
written back.  Returns the verdict and the record after the call. -/
def is_duplicate_message (stored : Option (List String)) (messageId : String) :
    Bool × Option (List String) :=
  let old := stored.getD []
  if messageId ∈ old then (true, stored)
  else
    let appended := old ++ [messageId]
    (false, some (appended.drop (appended.length - 5)))

/-! ## Derived notions used by the statements below -/

/-- The step values that have an arm in the webhook's `elif` chain.
`"awaiting_image"` and `"student_pending"` are conspicuously absent: the
webhook has no text arm for them, so text events at those steps fall into the
default branch. -/
def chainSteps : List String :=
  ["start", "manual", "ask_cat_owner", "ask_availability", "ask_room_type",
   "confirm_single", "ask_2_sharing", "confirm_2_sharing", "ask_3_sharing",
   "confirm_3_sharing", "ask_student_age", "confirm_listing", "end"]

/-- The steps whose arm has a genuine reject branch (every chain step except
`"ask_student_age"`, which accepts anything unconditionally). -/
def framedSteps : List String :=
  ["start", "manual", "ask_cat_owner", "ask_availability", "ask_room_type",
   "confirm_single", "ask_2_sharing", "confirm_2_sharing", "ask_3_sharing",
   "confirm_3_sharing", "confirm_listing", "end"]

/-- The re-prompt each framed step emits on a rejected input (the reply of
the corresponding `else` branch in `src/main.py`). -/
def rejectReply (step : String) : String :=
  if step = "start" then startRejectReply
  else if step = "manual" then manualRejectReply
  else if step = "ask_cat_owner" then catRejectReply
  else if step = "ask_availability" then availabilityRejectReply
  else if step = "ask_room_type" then singleCountRejectReply
  else if step = "confirm_single" then singleRentRejectReply
  else if step = "ask_2_sharing" then twoShareCountRejectReply
  else if step = "confirm_2_sharing" then twoShareRentRejectReply
  else if step = "ask_3_sharing" then threeShareCountRejectReply
  else if step = "confirm_3_sharing" then threeShareRentRejectReply
  else if step = "confirm_listing" then confirmRejectReply
  else endRejectReply

/-- The (normalized) messages each framed step rejects — the complement of
its accept conditions in `src/main.py`.  A non-text, non-image provider event
is normalized to `""` (line 88), which every framed step rejects, so
"Unrecognized event kind" is the special case `msg = ""` of this predicate. -/
def rejectsMsg (step msg : String) : Prop :=
  if step = "start" then msg ∉ greetingTokens ∧ msg ≠ "landlord" ∧ msg ≠ "student"
  else if step = "manual" then msg ∉ ["boys", "girls", "mixed"]
  else if step = "ask_cat_owner" then msg ∉ ["yes", "no"]
  else if step = "ask_availability" then msg ≠ "no" ∧ msg ≠ "yes"
  else if step = "ask_room_type" then pyParseInt? msg = none
  else if step = "confirm_single" then pyParseFloat? msg = none
  else if step = "ask_2_sharing" then pyParseInt? msg = none
  else if step = "confirm_2_sharing" then pyParseFloat? msg = none
  else if step = "ask_3_sharing" then pyParseInt? msg = none
  else if step = "confirm_3_sharing" then pyParseFloat? msg = none
  else if step = "confirm_listing" then msg ≠ "confirm" ∧ msg ≠ "cancel"
  else if step = "end" then msg ∉ greetingTokens
  else False

instance (step msg : String) : Decidable (rejectsMsg step msg) := by
  unfold rejectsMsg
  infer_instance

/-- The successful landlord intake path of the round-trip property:
role choice, verification image, house type, cat, availability, three
count/rent tiers, age range, confirmation. -/
def landlordScript : List (MsgType × String) :=
  [(.text, "landlord"), (.image, ""), (.text, "boys"), (.text, "yes"), (.text, "yes"),
   (.text, "3"), (.text, "130"), (.text, "2"), (.text, "80"), (.text, "1"),
   (.text, "60"), (.text, "18-22"), (.text, "confirm")]

/-! ## Helper lemmas -/

/-- Session initialization never changes the stored step. -/
theorem initState_step (loaded : Option Session) (name sender : String) :
    (initState loaded name sender).step = (loaded.getD {}).step := by
  unfold initState
  dsimp only
  split <;> rfl

/-- Session initialization never changes the collected attributes. -/
theorem initState_listingAttrs (loaded : Option Session) (name sender : String) :
    (initState loaded name sender).listingAttrs = (loaded.getD {}).listingAttrs := by
  unfold initState
  dsimp only
  split <;> rfl

/-- Updating only the step leaves the collected attributes untouched. -/
theorem listingAttrs_setStep (s : Session) (t : String) :
    ({ s with step := t } : Session).listingAttrs = s.listingAttrs := rfl

/-- Rejected messages take the reject branch of the corresponding arm: the
dispatch returns the session unchanged, the step's canonical re-prompt, and
performs no inner store. -/
theorem dispatchText_frame (msg sender : String) (s0 : Session)
    (hmem : s0.step ∈ framedSteps) (hrej : rejectsMsg s0.step msg) :
    dispatchText msg sender s0 = (s0, rejectReply s0.step, []) := by
  simp only [framedSteps, List.mem_cons, List.not_mem_nil, or_false] at hmem
  rcases hmem with h | h | h | h | h | h | h | h | h | h | h | h <;>
    simp only [rejectsMsg, h] at hrej <;>
    simp at hrej <;>
    first
      | (obtain ⟨a, b, c⟩ := hrej
         simp [dispatchText, rejectReply, h, a, b, c])
      | (obtain ⟨a, b⟩ := hrej
         simp [dispatchText, rejectReply, h, a, b])
      | simp [dispatchText, rejectReply, h, hrej]

/-- The float model agrees with CPython acceptance on the special forms:
signed `inf`/`infinity`/`nan` and PEP-515 underscore literals are accepted,
while misplaced underscores and non-numeric text are rejected. -/
theorem pyParseFloat_matches_cpython_forms :
    pyParseFloat? "inf" = some (PyFloat.inf false) ∧
    pyParseFloat? "-inf" = some (PyFloat.inf true) ∧
    pyParseFloat? "+infinity" = some (PyFloat.inf false) ∧
    pyParseFloat? "nan" = some PyFloat.nan ∧
    pyParseFloat? "-nan" = some PyFloat.nan ∧
    pyParseFloat? "1_0" = some (PyFloat.finite 10) ∧
    pyParseFloat? "1_0.2_5" = some (PyFloat.finite (mkRat 1025 100)) ∧
    pyParseFloat? "1e1_0" = some (PyFloat.finite 10000000000) ∧
    pyParseFloat? "130" = some (PyFloat.finite 130) ∧
    pyParseFloat? "130.5" = some (PyFloat.finite (mkRat 1305 10)) ∧
    pyParseFloat? "1__0" = none ∧
    pyParseFloat? "1_" = none ∧
    pyParseFloat? "_1" = none ∧
    pyParseFloat? "1_.5" = none ∧
    pyParseFloat? "abc" = none ∧
    pyParseFloat? "" = none := by
  decide

/-- Consequently the rent arms accept `"inf"` exactly as the source does:
`float("inf")` succeeds, the value is stored and the step advances (so such
inputs are NOT in the reject set quantified by the frame theorem below). -/
theorem confirmSingleArm_accepts_inf :
    rejectsMsg "confirm_single" "inf" = False ∧
    (confirmSingleArm "inf" "263770000001" { step := "confirm_single" }).1.rent_single
      = some (PyFloat.inf false) ∧
    (confirmSingleArm "inf" "263770000001" { step := "confirm_single" }).1.step
      = "ask_2_sharing" := by
  refine ⟨?_, by decide, by decide⟩
  simp [rejectsMsg]
  decide

/-! ## Claim theorems -/

/-- C1: starting from a fresh session, the successful event sequence
"landlord", one image, "boys", "yes", "yes", "3", "130", "2", "80", "1",
"60", "18-22", "confirm" ends with the session at step `"end"` and every
collected attribute set to exactly the literal value supplied along the
path. -/
theorem c1_round_trip :
    runScript "263770000001" "Tari" landlordScript none =
      some { step := "end", userName := some "Tari", userId := some "263770000001",
             house_type := some "boys", has_cat := some "yes",
             room_single := some 3, rent_single := some (PyFloat.finite 130),
             room_2_sharing := some 2, rent_2_sharing := some (PyFloat.finite 80),
             room_3_sharing := some 1, rent_3_sharing := some (PyFloat.finite 60),
             student_age := some "18-22" } := by
  decide

/-- C2 (counterexample): an Unrecognized event kind (here `MsgType.other`,
e.g. a sticker) arriving at the text-expecting step `"ask_student_age"` does
NOT leave the session unchanged: it is normalized to the empty message, which
the arm stores as `student_age` before advancing the step to
`"confirm_listing"`. -/
theorem c2_unrecognized_mutates_at_age_step :
    (webhookPost "263770000001" "Tari" MsgType.other ""
        (some { step := "ask_student_age" })).1.step = "confirm_listing" ∧
    (webhookPost "263770000001" "Tari" MsgType.other ""
        (some { step := "ask_student_age" })).1.student_age = some "" ∧
    ({ step := "ask_student_age" } : Session).student_age = none := by
  decide

/-- C2 (amended): for every step with a reject branch (all chain steps except
`"ask_student_age"`; the missing arms for `"awaiting_image"` and
`"student_pending"` are excluded as well) and every non-image event whose
normalized message the arm rejects — which covers every Unrecognized event
kind, normalized to `""` — handling the event leaves the step and the
collected attributes unchanged and emits the step's canonical re-prompt. -/
theorem c2_invalid_input_frame (sess : Session) (name sender : String)
    (mt : MsgType) (body : String)
    (hmt : mt ≠ MsgType.image)
    (hmem : sess.step ∈ framedSteps)
    (hrej : rejectsMsg sess.step (normalizeMsg mt body)) :
    (webhookPost sender name mt body (some sess)).1.step = sess.step ∧
    (webhookPost sender name mt body (some sess)).1.listingAttrs = sess.listingAttrs ∧
    (webhookPost sender name mt body (some sess)).2.1 = rejectReply sess.step := by
  have hs : (initState (some sess) name sender).step = sess.step :=
    initState_step (some sess) name sender
  have ha : (initState (some sess) name sender).listingAttrs = sess.listingAttrs :=
    initState_listingAttrs (some sess) name sender
  have hd := dispatchText_frame (normalizeMsg mt body) sender
    (initState (some sess) name sender) (by rwa [hs]) (by rwa [hs])
  simp only [webhookPost, if_neg hmt, hd]
  exact ⟨hs, ha, by rw [hs]⟩

/-- C2 (witness): a concrete rejected input — the non-numeric `"abc"` at the
single-room count step — leaves step and attributes unchanged and re-prompts. -/
theorem c2_invalid_input_frame_witness :
    (webhookPost "263770000001" "Tari" MsgType.text "abc"
        (some { step := "ask_room_type", house_type := some "boys" })).1.step
      = "ask_room_type" ∧
    (webhookPost "263770000001" "Tari" MsgType.text "abc"
        (some { step := "ask_room_type", house_type := some "boys" })).1.listingAttrs
      = ({ step := "ask_room_type", house_type := some "boys" } : Session).listingAttrs ∧
    (webhookPost "263770000001" "Tari" MsgType.text "abc"
        (some { step := "ask_room_type", house_type := some "boys" })).2.1
      = rejectReply "ask_room_type" :=
  c2_invalid_input_frame { step := "ask_room_type", house_type := some "boys" }
    "Tari" "263770000001" MsgType.text "abc" (by decide) (by decide) (by decide)

/-- C3 (counterexample): an image delivered while the session is at step
`"end"` does not leave the step unchanged — the webhook's image branch fires
at every step and moves the session to `"manual"`. -/
theorem c3_image_at_end_changes_step :
    (webhookPost "263770000001" "Tari" MsgType.image ""
        (some { step := "end" })).1.step = "manual" ∧
    ("manual" : String) ≠ "end" := by
  decide

/-- C3 (amended): an image event, at ANY step and regardless of any previous
image, unconditionally moves the session to `"manual"`
(= CollectingHouseType), leaves the collected attributes unchanged, and sends
the thank-you/house-type prompt; the code maintains no `imageReceived` or
`verified` flag, so a second image re-triggers the same transition. -/
theorem c3_image_always_advances (loaded : Option Session) (name sender body : String) :
    (webhookPost sender name MsgType.image body loaded).1.step = "manual" ∧
    (webhookPost sender name MsgType.image body loaded).1.listingAttrs =
      (loaded.getD {}).listingAttrs ∧
    (webhookPost sender name MsgType.image body loaded).2.1 = imageReply name := by
  refine ⟨rfl, ?_, rfl⟩
  have ha : (initState loaded name sender).listingAttrs = (loaded.getD {}).listingAttrs :=
    initState_listingAttrs loaded name sender
  simpa [webhookPost, Session.listingAttrs] using ha

/-- C4 (counterexample): the webhook never consults the dedup filter, so
delivering the same message twice yields TWO session mutations — here the
retried count `"3"` is re-processed at the step the first delivery advanced
to, and is stored a second time as the single-room rent.  The second call is
not a no-op and does touch the session. -/
theorem c4_duplicate_delivery_mutates_twice :
    (webhookPost "263770000001" "Tari" MsgType.text "3"
        (some { step := "ask_room_type" })).1.rent_single = none ∧
    (webhookPost "263770000001" "Tari" MsgType.text "3"
        (some (webhookPost "263770000001" "Tari" MsgType.text "3"
          (some { step := "ask_room_type" })).1)).1.rent_single
      = some (PyFloat.finite 3) ∧
    (webhookPost "263770000001" "Tari" MsgType.text "3"
        (some (webhookPost "263770000001" "Tari" MsgType.text "3"
          (some { step := "ask_room_type" })).1)).1 ≠
      (webhookPost "263770000001" "Tari" MsgType.text "3"
        (some { step := "ask_room_type" })).1 := by
  decide

/-- C4 (amended): the repository's dedup filter `is_duplicate_message` is
itself idempotence-correct — after any call records a delivery id, a retry of
the same id is flagged as a duplicate, and the recorded list is bounded to
the 5 most recent ids with the new id present — but the webhook never calls
it, so retried deliveries are re-processed (see the counterexample). -/
theorem c4_dedup_filter_flags_retry (stored : Option (List String)) (m : String) :
    (is_duplicate_message ((is_duplicate_message stored m).2) m).1 = true ∧
    (m ∉ stored.getD [] →
      ∃ l, (is_duplicate_message stored m).2 = some l ∧ m ∈ l ∧ l.length ≤ 5) := by
  have key : m ∈ (stored.getD [] ++ [m]).drop ((stored.getD [] ++ [m]).length - 5) := by
    have hk : (stored.getD [] ++ [m]).length - 5 ≤ (stored.getD []).length := by
      simp only [List.length_append, List.length_singleton]
      omega
    rw [List.drop_append_eq_append_drop, Nat.sub_eq_zero_of_le hk, List.drop_zero]
    exact List.mem_append_right _ (List.mem_singleton_self m)
  have klen : ((stored.getD [] ++ [m]).drop ((stored.getD [] ++ [m]).length - 5)).length ≤ 5 := by
    simp only [List.length_drop, List.length_append, List.length_singleton]
    omega
  by_cases h : m ∈ stored.getD []
  · refine ⟨?_, fun hn => absurd h hn⟩
    have hstored : ∃ o, stored = some o ∧ m ∈ o := by
      cases stored with
      | none => simp at h
      | some o => exact ⟨o, rfl, by simpa using h⟩
    obtain ⟨o, rfl, hmo⟩ := hstored
    simp [is_duplicate_message, hmo]
  · constructor
    · have key' : m ∈ (stored.getD [] ++ [m]).drop ((stored.getD []).length - 4) := by
        have hidx : (stored.getD [] ++ [m]).length - 5 = (stored.getD []).length - 4 := by
          simp only [List.length_append, List.length_singleton]
          omega
        rwa [hidx] at key
      simp only [is_duplicate_message, h, if_neg, Option.getD_some]
      simp [h, key']
    · intro _
      refine ⟨_, ?_, key, klen⟩
      simp [is_duplicate_message, h]

/-- C4 (witness): with the five ids a–e recorded, processing the fresh id
`"f"` once makes an immediate retry of `"f"` a flagged duplicate, and the
written record holds at most 5 ids including `"f"`. -/
theorem c4_dedup_filter_flags_retry_witness :
    (is_duplicate_message ((is_duplicate_message (some ["a", "b", "c", "d", "e"]) "f").2)
        "f").1 = true ∧
    ∃ l, (is_duplicate_message (some ["a", "b", "c", "d", "e"]) "f").2 = some l ∧
      "f" ∈ l ∧ l.length ≤ 5 :=
  ⟨(c4_dedup_filter_flags_retry (some ["a", "b", "c", "d", "e"]) "f").1,
   (c4_dedup_filter_flags_retry (some ["a", "b", "c", "d", "e"]) "f").2 (by decide)⟩

/-- C5 (counterexample): after a failed session load the engine does proceed:
`get_user_state` swallows the error into `None`, the webhook then treats the
party as new and — on the message "landlord" — performs the full
Start→AwaitingImage transition and persists it, exactly as if the session
were genuinely absent. -/
theorem c5_failed_load_restarts_at_start :
    get_user_state LoadOutcome.error = none ∧
    (webhookPost "263770000001" "Tari" MsgType.text "landlord"
        (get_user_state LoadOutcome.error)).1.step = "awaiting_image" := by
  decide

/-- C5 (amended): a failed session load is not surfaced: `get_user_state`
returns `None` on any backend error, so the engine handles the event exactly
as it would for an absent session — the party silently restarts at Start and
the transition (with its store writes) proceeds. -/
theorem c5_load_failure_treated_as_absent (sender name : String) (mt : MsgType)
    (body : String) :
    webhookPost sender name mt body (get_user_state LoadOutcome.error) =
      webhookPost sender name mt body (get_user_state (LoadOutcome.ok none)) := rfl

/-- C6 (counterexample): with every attribute collected and the session at
`"confirm_listing"`, the input "confirm" produces an effect trace whose only
outbound message is the fixed thank-you text sent to the party itself — no
summary of the attributes is sent to any operator address (`owner_phone` is
read from the environment in `src/main.py` line 15 but never used). -/
theorem c6_confirm_sends_no_owner_summary :
    (webhookPost "263770000001" "Tari" MsgType.text "confirm"
        (some { step := "confirm_listing", house_type := some "boys",
                has_cat := some "yes", room_single := some 3,
                rent_single := some (PyFloat.finite 130),
                room_2_sharing := some 2, rent_2_sharing := some (PyFloat.finite 80),
                room_3_sharing := some 1, rent_3_sharing := some (PyFloat.finite 60),
                student_age := some "18-22" })).2.2.filter
      (fun e => match e with | Effect.send _ _ => true | _ => false) =
      [Effect.send confirmThanksReply "263770000001"] := by
  decide

/-- C6 (amended): at `"confirm_listing"`, the input "confirm" moves the
session to `"end"`, and the full effect trace is two store writes of the
final session followed by the single thank-you message to the party — no
owner notification exists in the flow. -/
theorem c6_confirm_moves_to_end_without_owner_message (sess : Session)
    (name sender : String) :
    (webhookPost sender name MsgType.text "confirm"
        (some { sess with step := "confirm_listing" })).1.step = "end" ∧
    (webhookPost sender name MsgType.text "confirm"
        (some { sess with step := "confirm_listing" })).2.2 =
      [Effect.store sender (webhookPost sender name MsgType.text "confirm"
          (some { sess with step := "confirm_listing" })).1 SESSION_TTL,
       Effect.store sender (webhookPost sender name MsgType.text "confirm"
          (some { sess with step := "confirm_listing" })).1 SESSION_TTL,
       Effect.send confirmThanksReply sender] := by
  have hn : normalizeMsg MsgType.text "confirm" = "confirm" := by decide
  have hs : (initState (some { sess with step := "confirm_listing" }) name sender).step
      = "confirm_listing" :=
    initState_step (some { sess with step := "confirm_listing" }) name sender
  simp only [webhookPost, hn]
  rw [show (dispatchText "confirm" sender
        (initState (some { sess with step := "confirm_listing" }) name sender)) =
      ({ initState (some { sess with step := "confirm_listing" }) name sender with
          step := "end" }, confirmThanksReply,
        [Effect.store sender { initState (some { sess with step := "confirm_listing" })
            name sender with step := "end" } SESSION_TTL]) from by
    simp [dispatchText, hs]]
  simp

/-- C7 (counterexample): "hello" is not in the webhook's greeting token list,
and sending it at a fresh Start session takes the reject branch — the reply
is the reject re-prompt, not the greeting's role-choice prompt that "hi"
receives. -/
theorem c7_hello_not_a_greeting :
    "hello" ∉ greetingTokens ∧
    (webhookPost "263770000001" "Tari" MsgType.text "hello" none).2.1 = startRejectReply ∧
    startRejectReply ≠ startGreetReply ∧
    (webhookPost "263770000001" "Tari" MsgType.text "hi" none).2.1 = startGreetReply := by
  decide

/-- C7 (amended): the greeting token set is exactly {hi, hie, hey} — "hello"
is not in it.  A message whose trimmed, lower-cased form is one of the three
tokens, sent at Start, emits the role-choice greeting prompt and leaves the
step at Start, while "hello" at Start falls to the reject branch, emitting
the role re-prompt (step also unchanged). -/
theorem c7_greeting_token_set (sess : Session) (name sender body : String)
    (h : pyLower (pyStrip body) ∈ greetingTokens) :
    (webhookPost sender name MsgType.text body
        (some { sess with step := "start" })).2.1 = startGreetReply ∧
    (webhookPost sender name MsgType.text body
        (some { sess with step := "start" })).1.step = "start" ∧
    (webhookPost sender name MsgType.text "hello"
        (some { sess with step := "start" })).2.1 = startRejectReply ∧
    (webhookPost sender name MsgType.text "hello"
        (some { sess with step := "start" })).1.step = "start" := by
  have hs : (initState (some { sess with step := "start" }) name sender).step = "start" :=
    initState_step (some { sess with step := "start" }) name sender
  have hgr : dispatchText (normalizeMsg MsgType.text body) sender
      (initState (some { sess with step := "start" }) name sender) =
      (initState (some { sess with step := "start" }) name sender, startGreetReply, []) := by
    have hb : normalizeMsg MsgType.text body = pyLower (pyStrip body) := rfl
    simp [dispatchText, hs, hb, h]
  have hh := dispatchText_frame (normalizeMsg MsgType.text "hello") sender
    (initState (some { sess with step := "start" }) name sender)
    (by rw [hs]; decide) (by rw [hs]; decide)
  refine ⟨?_, ?_, ?_, ?_⟩ <;> simp [webhookPost, hgr, hh, hs, rejectReply]

/-- C7 (witness): the body " HEY " normalizes to the greeting token "hey":
at Start it draws the greeting prompt and keeps the step, while "hello" draws
the reject re-prompt. -/
theorem c7_greeting_token_set_witness :
    (webhookPost "263770000001" "Tari" MsgType.text " HEY "
        (some { ({} : Session) with step := "start" })).2.1 = startGreetReply ∧
    (webhookPost "263770000001" "Tari" MsgType.text " HEY "
        (some { ({} : Session) with step := "start" })).1.step = "start" ∧
    (webhookPost "263770000001" "Tari" MsgType.text "hello"
        (some { ({} : Session) with step := "start" })).2.1 = startRejectReply ∧
    (webhookPost "263770000001" "Tari" MsgType.text "hello"
        (some { ({} : Session) with step := "start" })).1.step = "start" :=
  c7_greeting_token_set {} "Tari" "263770000001" " HEY " (by decide)

/-- C8 (counterexample): the free-text age answer "Under 25" is stored at the
age step as "under 25" — line 88 lower-cases (and trims) every inbound text
before any handler runs, so the sender's original casing is lost. -/
theorem c8_age_casing_lost :
    (webhookPost "263770000001" "Tari" MsgType.text "Under 25"
        (some { step := "ask_student_age" })).1.student_age = some "under 25" ∧
    some "under 25" ≠ some "Under 25" := by
  decide

/-- C8 (amended): every inbound text is trimmed and lower-cased at ingestion;
the `student_age` value stored at the age step is that normalized form of the
sender's text, not the verbatim original, and the step advances to
`"confirm_listing"`. -/
theorem c8_age_stores_lowercased_text (sess : Session) (name sender body : String) :
    (webhookPost sender name MsgType.text body
        (some { sess with step := "ask_student_age" })).1.student_age
      = some (pyLower (pyStrip body)) ∧
    (webhookPost sender name MsgType.text body
        (some { sess with step := "ask_student_age" })).1.step = "confirm_listing" := by
  have hs : (initState (some { sess with step := "ask_student_age" }) name sender).step
      = "ask_student_age" :=
    initState_step (some { sess with step := "ask_student_age" }) name sender
  constructor <;> simp [webhookPost, dispatchText, hs, normalizeMsg]

/-- C9 (counterexample): at the unknown step "bogus", the message "landlord"
is NOT handled as if the session were at Start (that would advance to
`"awaiting_image"`): the default branch merely resets the step to `"start"`
for the next event — and the previously collected `house_type` is carried
over, not cleared. -/
theorem c9_unknown_step_keeps_attributes :
    (webhookPost "263770000001" "Tari" MsgType.text "landlord"
        (some { step := "bogus", house_type := some "boys" })).1.step = "start" ∧
    (webhookPost "263770000001" "Tari" MsgType.text "landlord"
        (some { step := "bogus", house_type := some "boys" })).1.house_type = some "boys" ∧
    (webhookPost "263770000001" "Tari" MsgType.text "landlord"
        (some ({ step := "start" } : Session))).1.step = "awaiting_image" := by
  decide

/-- C9 (amended): a stored step value outside the dispatch chain falls to the
total default branch (no crash): the reply is the fixed apology, the step is
reset to `"start"` for the NEXT event — the current event is not
re-interpreted at Start — and the previously collected attributes are
retained in the stored session, not dropped. -/
theorem c9_unknown_step_resets (sess : Session) (name sender body : String)
    (h : sess.step ∉ chainSteps) :
    (webhookPost sender name MsgType.text body (some sess)).1.step = "start" ∧
    (webhookPost sender name MsgType.text body (some sess)).1.listingAttrs
      = sess.listingAttrs ∧
    (webhookPost sender name MsgType.text body (some sess)).2.1 = defaultReply := by
  have hs : (initState (some sess) name sender).step = sess.step :=
    initState_step (some sess) name sender
  have ha : (initState (some sess) name sender).listingAttrs = sess.listingAttrs :=
    initState_listingAttrs (some sess) name sender
  simp only [chainSteps, List.mem_cons, List.not_mem_nil, or_false, not_or] at h
  obtain ⟨h1, h2, h3, h4, h5, h6, h7, h8, h9, h10, h11, h12, h13⟩ := h
  have hd : dispatchText (normalizeMsg MsgType.text body) sender
      (initState (some sess) name sender) =
      ({ initState (some sess) name sender with step := "start" }, defaultReply, []) := by
    simp [dispatchText, hs, h1, h2, h3, h4, h5, h6, h7, h8, h9, h10, h11, h12, h13]
  refine ⟨?_, ?_, ?_⟩ <;> simp [webhookPost, hd, listingAttrs_setStep, ha]

/-- C9 (witness): the unknown step "limbo" with a collected answer: the event
resets the step, keeps the attributes, and replies with the apology. -/
theorem c9_unknown_step_resets_witness :
    (webhookPost "263770000001" "Tari" MsgType.text "hello"
        (some { step := "limbo", has_cat := some "no" })).1.step = "start" ∧
    (webhookPost "263770000001" "Tari" MsgType.text "hello"
        (some { step := "limbo", has_cat := some "no" })).1.listingAttrs
      = ({ step := "limbo", has_cat := some "no" } : Session).listingAttrs ∧
    (webhookPost "263770000001" "Tari" MsgType.text "hello"
        (some { step := "limbo", has_cat := some "no" })).2.1 = defaultReply :=
  c9_unknown_step_resets { step := "limbo", has_cat := some "no" }
    "Tari" "263770000001" "hello" (by decide)

/-- Every dispatch branch performs either no inner store or exactly one inner
store of its final session with the session TTL. -/
theorem dispatchText_inner (msg sender : String) (s0 : Session) :
    (dispatchText msg sender s0).2.2 = [] ∨
    (dispatchText msg sender s0).2.2 =
      [Effect.store sender (dispatchText msg sender s0).1 SESSION_TTL] := by
  by_cases hmem : s0.step ∈ chainSteps
  · simp only [chainSteps, List.mem_cons, List.not_mem_nil, or_false] at hmem
    rcases hmem with h | h | h | h | h | h | h | h | h | h | h | h | h
    all_goals simp [dispatchText, h]
    all_goals try (repeat' split)
    all_goals simp
  · simp only [chainSteps, List.mem_cons, List.not_mem_nil, or_false, not_or] at hmem
    obtain ⟨h1, h2, h3, h4, h5, h6, h7, h8, h9, h10, h11, h12, h13⟩ := hmem
    simp [dispatchText, h1, h2, h3, h4, h5, h6, h7, h8, h9, h10, h11, h12, h13]

/-- C10: every handled inbound text event, at every step and for every input
— accepted or rejected — produces an effect trace of one or two Redis writes
of the final session, each with the refreshed 2-day TTL (172800 s), followed
by (and only then) the single reply send. -/
theorem c10_text_event_persists_before_send (loaded : Option Session)
    (name sender body : String) :
    SESSION_TTL = 172800 ∧
    ∃ n, 1 ≤ n ∧
      (webhookPost sender name MsgType.text body loaded).2.2 =
        List.replicate n (Effect.store sender
          (webhookPost sender name MsgType.text body loaded).1 SESSION_TTL) ++
        [Effect.send (webhookPost sender name MsgType.text body loaded).2.1 sender] := by
  refine ⟨rfl, ?_⟩
  have hpost : webhookPost sender name MsgType.text body loaded =
      ((dispatchText (normalizeMsg MsgType.text body) sender
          (initState loaded name sender)).1,
       (dispatchText (normalizeMsg MsgType.text body) sender
          (initState loaded name sender)).2.1,
       (dispatchText (normalizeMsg MsgType.text body) sender
          (initState loaded name sender)).2.2 ++
         [Effect.store sender (dispatchText (normalizeMsg MsgType.text body) sender
            (initState loaded name sender)).1 SESSION_TTL,
          Effect.send (dispatchText (normalizeMsg MsgType.text body) sender
            (initState loaded name sender)).2.1 sender]) := by
    simp [webhookPost]
  rcases dispatchText_inner (normalizeMsg MsgType.text body) sender
      (initState loaded name sender) with hI | hI
  · exact ⟨1, by omega, by rw [hpost]; simp [hI]⟩
  · exact ⟨2, by omega, by rw [hpost]; simp [hI, List.replicate]⟩

end OffRezBot
